import Mathlib

/-!
Verification of the response-normalization / enrichment / rendering pipeline of
`src/crawler.py` (financial-analysis-system).

Shallow embedding conventions:
* Python strings are Lean `String` (sequences of Unicode code points, as in
  CPython); where index arithmetic matters we work on `String.data : List Char`.
* Python `dict.get(k)` / `dict.get(k, d)` on the report/stock dictionaries is
  modelled with `PyVal` (a value that is absent, a string, or a number) and
  `pyGet` below.  Python floats are modelled as exact rationals `ℚ`;
  no claim below depends on binary floating-point rounding or on the exact
  digits of Python's float formatting, only on which branch produces a number
  versus the "N/A" sentinel string.
* Python exceptions are modelled with `Except String`; a `try/except` block
  becomes a `match` on the possible outcomes, and the outcome of an external
  HTTP/API call is an explicit `FetchOutcome` oracle argument (normal result or
  raised exception).
-/

/-- The character `{` (written via its code point to keep it out of source
literals). -/
def lbrace : Char := Char.ofNat 123

/-- The character `}` (written via its code point). -/
def rbrace : Char := Char.ofNat 125

/-- Python `str.find(c)`: index of the first occurrence of `c`, `none` for the
Python result `-1`.  (`crawler.py` line 253.) -/
def findCharIdx (c : Char) : List Char → Option Nat
  | [] => none
  | x :: xs => if x = c then some 0 else (findCharIdx c xs).map (· + 1)

/-- Python `str.rfind(c)`: index of the last occurrence of `c`, `none` for the
Python result `-1`.  (`crawler.py` line 257.) -/
def rfindCharIdx (c : Char) (l : List Char) : Option Nat :=
  (findCharIdx c l.reverse).map (fun i => l.length - 1 - i)

/-- The two failure messages raised by `_parse_gemini_response`'s extraction
step (`crawler.py` lines 255 and 259); both are Python `ValueError`s. -/
inductive ExtractErr where
  | noStart
  | noEnd
deriving DecidableEq, Repr

/-- The JSON-extraction step of `_parse_gemini_response` (`crawler.py` lines
253-261): take the substring from the first `{` through the last `}`
(inclusive – Python `raw_text[json_start_index : json_end_index + 1]`),
raising if no `{` exists, or if no `}` exists, or if the last `}` is before the
first `{`. -/
def extractJsonL (raw : List Char) : Except ExtractErr (List Char) :=
  match findCharIdx lbrace raw with
  | none => Except.error ExtractErr.noStart
  | some s =>
    match rfindCharIdx rbrace raw with
    | none => Except.error ExtractErr.noEnd
    | some e =>
      if e < s then Except.error ExtractErr.noEnd
      else Except.ok ((raw.drop s).take (e + 1 - s))

/-- String-level wrapper of the extraction step. -/
def extractJson (raw : String) : Except ExtractErr String :=
  (extractJsonL raw.data).map String.mk

theorem findCharIdx_eq_none (c : Char) (l : List Char) (h : c ∉ l) :
    findCharIdx c l = none := by
  induction l with
  | nil => rfl
  | cons x xs ih =>
    simp only [List.mem_cons, not_or] at h
    have hx : ¬ (x = c) := fun hh => h.1 hh.symm
    simp [findCharIdx, hx, ih h.2]

theorem findCharIdx_append_of_notMem (c : Char) (a l : List Char) (h : c ∉ a) :
    findCharIdx c (a ++ l) = (findCharIdx c l).map (· + a.length) := by
  induction a with
  | nil =>
    simp only [List.nil_append, List.length_nil]
    cases findCharIdx c l <;> simp
  | cons x xs ih =>
    simp only [List.mem_cons, not_or] at h
    have hx : ¬ (x = c) := fun hh => h.1 hh.symm
    rw [List.cons_append]
    show (if x = c then some 0 else (findCharIdx c (xs ++ l)).map (· + 1)) = _
    rw [if_neg hx, ih h.2]
    cases findCharIdx c l with
    | none => rfl
    | some i =>
      simp only [Option.map_some', Option.map_some', Option.some.injEq, List.length_cons]
      omega

theorem findCharIdx_cons_self (c : Char) (t : List Char) :
    findCharIdx c (c :: t) = some 0 := by
  simp [findCharIdx]

theorem findCharIdx_lt_length (c : Char) (l : List Char) (k : Nat)
    (h : findCharIdx c l = some k) : k < l.length := by
  induction l generalizing k with
  | nil => simp [findCharIdx] at h
  | cons x xs ih =>
    by_cases hx : x = c
    · simp only [findCharIdx, if_pos hx, Option.some.injEq] at h
      simp only [List.length_cons]
      omega
    · simp only [findCharIdx, if_neg hx] at h
      cases hfk : findCharIdx c xs with
      | none => rw [hfk] at h; simp at h
      | some i =>
        rw [hfk] at h
        simp only [Option.map_some', Option.some.injEq] at h
        have := ih i hfk
        simp only [List.length_cons]
        omega

theorem findCharIdx_mem (c : Char) (l : List Char) (h : c ∈ l) :
    ∃ k, findCharIdx c l = some k := by
  induction l with
  | nil => simp at h
  | cons x xs ih =>
    by_cases hx : x = c
    · exact ⟨0, by simp [findCharIdx, hx]⟩
    · have hmem : c ∈ xs := by
        rcases List.mem_cons.mp h with h1 | h1
        · exact absurd h1.symm hx
        · exact h1
      obtain ⟨k, hk⟩ := ih hmem
      exact ⟨k + 1, by simp [findCharIdx, if_neg hx, hk]⟩

/-- The first `{` in `a ++ ({ :: t) ++ b` with `{ ∉ a` is at index `a.length`. -/
theorem findCharIdx_first (a t b : List Char) (h : lbrace ∉ a) :
    findCharIdx lbrace (a ++ (lbrace :: t) ++ b) = some a.length := by
  rw [List.append_assoc, findCharIdx_append_of_notMem _ _ _ h]
  simp [findCharIdx_cons_self]

/-- The last `}` in `(a' ++ [}]) ++ b` with `} ∉ b` is at index `a'.length`. -/
theorem rfindCharIdx_last (a' b : List Char) (h : rbrace ∉ b) :
    rfindCharIdx rbrace ((a' ++ [rbrace]) ++ b) = some a'.length := by
  unfold rfindCharIdx
  have hrev : ((a' ++ [rbrace]) ++ b).reverse = b.reverse ++ rbrace :: a'.reverse := by
    simp
  rw [hrev, findCharIdx_append_of_notMem _ _ _ (by simpa using h), findCharIdx_cons_self]
  simp only [Option.map_some', Option.some.injEq, List.length_reverse,
    List.length_append, List.length_singleton, Nat.zero_add]
  omega

theorem extract_exact (a t j0 b : List Char)
    (ha : lbrace ∉ a) (hb : rbrace ∉ b)
    (hj : lbrace :: t = j0 ++ [rbrace]) :
    extractJsonL (a ++ (lbrace :: t) ++ b) = Except.ok (lbrace :: t) := by
  have h1 : findCharIdx lbrace (a ++ (lbrace :: t) ++ b) = some a.length :=
    findCharIdx_first a t b ha
  have hlen : t.length = j0.length := by
    have := congrArg List.length hj
    simp only [List.length_cons, List.length_append, List.length_singleton,
      List.length_nil] at this
    omega
  have h2 : rfindCharIdx rbrace (a ++ (lbrace :: t) ++ b) = some (a.length + t.length) := by
    have heq : a ++ (lbrace :: t) ++ b = ((a ++ j0) ++ [rbrace]) ++ b := by
      rw [hj, ← List.append_assoc]
    rw [heq, rfindCharIdx_last _ _ hb]
    have hj0 : (a ++ j0).length = a.length + t.length := by
      simp only [List.length_append]
      omega
    rw [hj0]
  simp only [extractJsonL, h1, h2]
  rw [if_neg (by omega : ¬ a.length + t.length < a.length)]
  have hdrop : (a ++ (lbrace :: t) ++ b).drop a.length = (lbrace :: t) ++ b := by
    rw [List.append_assoc, List.drop_left]
  have htake : a.length + t.length + 1 - a.length = (lbrace :: t).length := by
    simp only [List.length_cons]
    omega
  rw [hdrop, htake, List.take_left]

/- ===== Claim C3 ===== -/

/-- C3: for every input text consisting of a single well-formed JSON object
(first character `{`, last character `}`) preceded and followed by arbitrary
prose containing no brace characters, the extractor returns exactly the JSON
object's text (the substring from the first `{` through the last `}`
inclusive). -/
theorem c3_extractor_exact (a j b : List Char)
    (ha1 : lbrace ∉ a) (ha2 : rbrace ∉ a) (hb1 : lbrace ∉ b) (hb2 : rbrace ∉ b)
    (hj1 : j.head? = some lbrace) (hj2 : j.getLast? = some rbrace) :
    extractJsonL (a ++ j ++ b) = Except.ok j := by
  rcases j with _ | ⟨c, t⟩
  · simp at hj1
  · have hc : c = lbrace := by simpa using hj1
    subst hc
    have hne : (lbrace :: t) ≠ [] := by simp
    have hlast : (lbrace :: t).getLast hne = rbrace := by
      have hgl := List.getLast?_eq_getLast (lbrace :: t) hne
      rw [hgl] at hj2
      exact Option.some_inj.mp hj2
    obtain ⟨j0, hj0⟩ : ∃ j0, lbrace :: t = j0 ++ [rbrace] := by
      refine ⟨(lbrace :: t).dropLast, ?_⟩
      conv_lhs => rw [← List.dropLast_append_getLast hne]
      rw [hlast]
    exact extract_exact a t j0 b ha1 hb2 hj0

/-- Witness for C3 at a concrete input: prose `xy `, object `{k}`, prose ` z`. -/
theorem c3_witness :
    extractJsonL (['x', 'y', ' '] ++ [lbrace, 'k', rbrace] ++ [' ', 'z'])
      = Except.ok [lbrace, 'k', rbrace] :=
  c3_extractor_exact ['x', 'y', ' '] [lbrace, 'k', rbrace] [' ', 'z']
    (by decide) (by decide) (by decide) (by decide) (by decide) (by decide)

/- ===== Claim C4 ===== -/

/-- C4: for every input text with no `{`, the extractor fails with the
"no JSON start marker" error; and for every text whose last `}` occurs before
the first `{` (including the case that no `}` exists at all) — i.e. any text of
the form `a ++ { :: b` with `{ ∉ a` and `} ∉ b` — it fails with the
"no JSON end marker" error of the same error kind (`ValueError` in the source;
`ExtractErr` here).  In both cases no extraction result is produced. -/
theorem c4_extractor_errors :
    (∀ l : List Char, lbrace ∉ l → extractJsonL l = Except.error ExtractErr.noStart) ∧
    (∀ a b : List Char, lbrace ∉ a → rbrace ∉ b →
      extractJsonL (a ++ lbrace :: b) = Except.error ExtractErr.noEnd) := by
  constructor
  · intro l h
    unfold extractJsonL
    rw [findCharIdx_eq_none lbrace l h]
  · intro a b ha hb
    have hfind : findCharIdx lbrace (a ++ lbrace :: b) = some a.length := by
      rw [findCharIdx_append_of_notMem _ _ _ ha, findCharIdx_cons_self]
      simp
    by_cases hra : rbrace ∈ a
    · -- the last `}` lies inside `a`, strictly before the first `{`
      obtain ⟨k, hk⟩ := findCharIdx_mem rbrace a.reverse (by simpa using hra)
      have hklt : k < a.length := by
        have := findCharIdx_lt_length rbrace a.reverse k hk
        simpa using this
      have hnb : rbrace ∉ b.reverse := by simpa using hb
      have hnl : rbrace ∉ [lbrace] := by decide
      have hrev : (a ++ lbrace :: b).reverse = b.reverse ++ ([lbrace] ++ a.reverse) := by
        simp
      have hrf : rfindCharIdx rbrace (a ++ lbrace :: b) = some (a.length - 1 - k) := by
        unfold rfindCharIdx
        rw [hrev, findCharIdx_append_of_notMem _ _ _ hnb,
          findCharIdx_append_of_notMem _ _ _ hnl, hk]
        simp only [Option.map_some', Option.some.injEq, List.length_append,
          List.length_cons, List.length_reverse, List.length_singleton, List.length_nil]
        omega
      simp only [extractJsonL, hfind, hrf]
      rw [if_pos (by omega)]
    · -- no `}` anywhere in the text
      have hnone : rfindCharIdx rbrace (a ++ lbrace :: b) = none := by
        unfold rfindCharIdx
        rw [findCharIdx_eq_none]
        · rfl
        · simp only [List.mem_reverse, List.mem_append, List.mem_cons, not_or]
          refine ⟨hra, ?_, hb⟩
          decide
      simp only [extractJsonL, hfind, hnone]

/-- Witness for C4 at concrete inputs: `abc` has no `{`; in `}x{yz` the last
`}` precedes the first `{`. -/
theorem c4_witness :
    extractJsonL ['a', 'b', 'c'] = Except.error ExtractErr.noStart ∧
    extractJsonL ([rbrace, 'x'] ++ lbrace :: ['y', 'z']) = Except.error ExtractErr.noEnd :=
  ⟨c4_extractor_errors.1 ['a', 'b', 'c'] (by decide),
   c4_extractor_errors.2 [rbrace, 'x'] ['y', 'z'] (by decide) (by decide)⟩

/- ===== Python value model ===== -/

/-- A value stored in one of the report's dictionaries: absent key, a string,
or a number.  Python floats and ints are modelled as exact rationals; no claim
below depends on binary floating-point rounding, only on which branch yields a
number versus the "N/A" sentinel string. -/
inductive PyVal where
  | vNone
  | vStr (s : String)
  | vNum (q : ℚ)
deriving DecidableEq

/-- Python `d.get(key, default)`: an absent value is replaced by the (string)
default. -/
def pyGet (v : PyVal) (dflt : String) : PyVal :=
  match v with
  | PyVal.vNone => PyVal.vStr dflt
  | x => x

/-- Rendering of a numeric value inside an f-string (`f"{x}"`).  This is an
explicit abstraction of CPython's float repr (which depends on binary
floating point); no claim depends on the digits produced here. -/
def renderQ (q : ℚ) : String :=
  if q.den = 1 then toString q.num ++ ".0"
  else toString q.num ++ "/" ++ toString q.den

/-- Rendering with two decimal places (`f"{x:.2f}"`), on exact rationals with
round-half-up (CPython rounds the binary double half-to-even; no claim depends
on the digits produced here). -/
def fmt2 (q : ℚ) : String :=
  let c : Int := Int.floor (q * 100 + 1 / 2)
  let sign := if c < 0 then "-" else ""
  let a := c.natAbs
  sign ++ toString (a / 100) ++ "." ++ (if a % 100 < 10 then "0" else "") ++ toString (a % 100)

/-- Python `str(x)` / f-string interpolation of a value. -/
def pyInterp : PyVal → String
  | PyVal.vNone => "None"
  | PyVal.vStr s => s
  | PyVal.vNum q => renderQ q

/-- Python `sep.join(parts)`. -/
def joinSep (sep : String) : List String → String
  | [] => ""
  | [x] => x
  | x :: xs => x ++ sep ++ joinSep sep xs

/- ===== Claim C5: dailyCommentary dict flattening ===== -/

/-- The generator expression of `_parse_gemini_response` (`crawler.py` line
273): `f"{k}: {v}" for k, v in daily_commentary.items() if isinstance(v, str)`.
Python 3.7+ dicts iterate in insertion order, modelled by the list order. -/
def flattenParts (entries : List (String × PyVal)) : List String :=
  entries.filterMap (fun kv =>
    match kv.2 with
    | PyVal.vStr v => some (kv.1 ++ ": " ++ v)
    | _ => none)

/-- The dict-flattening fix of `_parse_gemini_response` (`crawler.py` lines
269-274): `"\n\n".join(...)` over the string-valued entries. -/
def flattenCommentary (entries : List (String × PyVal)) : String :=
  joinSep "\n\n" (flattenParts entries)

/-- Does a value satisfy Python's `isinstance(v, str)`? -/
def isVStr : PyVal → Bool
  | PyVal.vStr _ => true
  | _ => false

/-- C5: flattening a commentary mapping whose values are all strings yields the
`key: value` pairs of **every** entry, joined by blank lines, in iteration
order — no value is dropped; and in general exactly the string-valued entries
are kept. -/
theorem c5_commentary_flatten (entries : List (String × PyVal))
    (h : ∀ kv ∈ entries, ∃ s, kv.2 = PyVal.vStr s) :
    flattenCommentary entries
      = joinSep "\n\n" (entries.map (fun kv => kv.1 ++ ": " ++ pyInterp kv.2)) ∧
    (flattenParts entries).length = entries.length ∧
    ∀ l : List (String × PyVal), (flattenParts l).length = l.countP (fun kv => isVStr kv.2) := by
  have key : ∀ l : List (String × PyVal), (∀ kv ∈ l, ∃ s, kv.2 = PyVal.vStr s) →
      flattenParts l = l.map (fun kv => kv.1 ++ ": " ++ pyInterp kv.2) := by
    intro l hl
    induction l with
    | nil => rfl
    | cons kv t ih =>
      obtain ⟨s, hs⟩ := hl kv (List.mem_cons_self _ _)
      rcases kv with ⟨k, v⟩
      simp only at hs
      subst hs
      have ht := ih (fun x hx => hl x (List.mem_cons_of_mem _ hx))
      simp [flattenParts, List.filterMap_cons, pyInterp] at ht ⊢
      exact ht
  have count : ∀ l : List (String × PyVal),
      (flattenParts l).length = l.countP (fun kv => isVStr kv.2) := by
    intro l
    induction l with
    | nil => rfl
    | cons kv t ih =>
      rcases kv with ⟨k, v⟩
      cases v <;>
        simp [flattenParts, List.filterMap_cons, List.countP_cons, isVStr, ih] at *
  refine ⟨?_, ?_, count⟩
  · rw [flattenCommentary, key entries h]
  · rw [key entries h, List.length_map]

/-- Witness for C5 at a concrete two-entry mapping. -/
theorem c5_witness :
    flattenCommentary [("美股", PyVal.vStr "上涨"), ("港股", PyVal.vStr "下跌")]
      = joinSep "\n\n" ([("美股", PyVal.vStr "上涨"), ("港股", PyVal.vStr "下跌")].map
          (fun kv => kv.1 ++ ": " ++ pyInterp kv.2)) ∧
    (flattenParts [("美股", PyVal.vStr "上涨"), ("港股", PyVal.vStr "下跌")]).length = 2 := by
  have h := c5_commentary_flatten [("美股", PyVal.vStr "上涨"), ("港股", PyVal.vStr "下跌")]
    (by intro kv hkv; fin_cases hkv <;> exact ⟨_, rfl⟩)
  exact ⟨h.1, h.2.1⟩

/- ===== Stock picks and the compact rich-text projection ===== -/

/-- One stock-pick dictionary.  The parser creates only `stockCode` /
`companyName` / `reason`; the enricher later adds the market-data keys
(`PyVal.vNone` = key absent). -/
structure StockPick where
  stockCode : PyVal := PyVal.vNone
  companyName : PyVal := PyVal.vNone
  reason : PyVal := PyVal.vNone
  price : PyVal := PyVal.vNone
  marketCap : PyVal := PyVal.vNone
  weeklyChange : PyVal := PyVal.vNone
  peRatio : PyVal := PyVal.vNone
  psRatio : PyVal := PyVal.vNone
  roeRatio : PyVal := PyVal.vNone
  pbRatio : PyVal := PyVal.vNone
  sourceLink : PyVal := PyVal.vNone
deriving DecidableEq

/-- Python `s[:n]` on strings (slice of code points). -/
def strTake (s : String) (n : Nat) : String := String.mk (s.data.take n)

/-- The compact per-stock string of `_format_stocks_for_notion`
(`crawler.py` lines 462-479): the bracketed numbered line, then the price
segment unless the price equals the `"N/A"` sentinel, then the weekly-change
segment unless it equals the sentinel — formatted `:.2f` when numeric. -/
def stockLine (i : Nat) (stock : StockPick) : String :=
  let base := "[" ++ toString (i + 1) ++ ". " ++ pyInterp (pyGet stock.companyName "N/A")
    ++ " (" ++ pyInterp (pyGet stock.stockCode "N/A") ++ "): "
    ++ pyInterp (pyGet stock.reason "N/A") ++ "]"
  let withPrice :=
    if stock.price ≠ PyVal.vStr "N/A" then base ++ " | 价格: " ++ pyInterp stock.price
    else base
  if stock.weeklyChange ≠ PyVal.vStr "N/A" then
    match stock.weeklyChange with
    | PyVal.vNum q => withPrice ++ " | 周涨幅: " ++ fmt2 q ++ "%"
    | w => withPrice ++ " | 周涨幅: " ++ pyInterp w ++ "%"
  else withPrice

/-- The per-stock strings, in order (`enumerate(stocks)`). -/
def notionParts (stocks : List StockPick) : List String :=
  stocks.enum.map (fun p => stockLine p.1 p.2)

/-- The natural blank-line-joined serialization (`"\n\n".join(formatted_list)`,
`crawler.py` line 482). -/
def notionFullString (stocks : List StockPick) : String :=
  joinSep "\n\n" (notionParts stocks)

/-- `_format_stocks_for_notion` (`crawler.py` lines 456-486): empty input
yields the empty string; otherwise the joined serialization, hard-truncated to
its first 1995 characters plus `"..."` when it exceeds 2000 characters. -/
def formatStocksForNotion (stocks : List StockPick) : String :=
  if stocks.isEmpty then ""
  else if 2000 < (notionFullString stocks).length then
    strTake (notionFullString stocks) 1995 ++ "..."
  else notionFullString stocks

theorem strLen_append (a b : String) : (a ++ b).length = a.length + b.length := by
  rcases a with ⟨la⟩
  rcases b with ⟨lb⟩
  show (String.mk (la ++ lb)).length = _
  simp [String.length]

theorem strTake_length (s : String) (n : Nat) : (strTake s n).length = min n s.length := by
  rcases s with ⟨l⟩
  simp [strTake, String.length]

/- ===== Claim C2 ===== -/

/-- C2: the compact rich-text projection never exceeds 2000 characters, and
whenever the blank-line-joined serialization exceeds 2000 characters, the
result is exactly its first 1995 characters followed by `"..."` (hence ends
with the ellipsis marker and is exactly 1998 characters long) — the truncation
is at the tail only. -/
theorem c2_notion_truncation (stocks : List StockPick) :
    (formatStocksForNotion stocks).length ≤ 2000 ∧
    (2000 < (notionFullString stocks).length →
      formatStocksForNotion stocks = strTake (notionFullString stocks) 1995 ++ "..." ∧
      (formatStocksForNotion stocks).length = 1998) := by
  by_cases he : stocks.isEmpty
  · constructor
    · simp [formatStocksForNotion, he, String.length]
    · intro hgt
      exfalso
      rw [List.isEmpty_iff.mp he] at hgt
      simp [notionFullString, notionParts, joinSep, String.length] at hgt
  · by_cases hgt : 2000 < (notionFullString stocks).length
    · have hform : formatStocksForNotion stocks
          = strTake (notionFullString stocks) 1995 ++ "..." := by
        simp [formatStocksForNotion, he, hgt]
      have hlen : (formatStocksForNotion stocks).length = 1998 := by
        rw [hform, strLen_append, strTake_length]
        have h3 : ("..." : String).length = 3 := rfl
        rw [h3]
        omega
      exact ⟨by rw [hlen]; omega, fun _ => ⟨hform, hlen⟩⟩
    · have hform : formatStocksForNotion stocks = notionFullString stocks := by
        simp [formatStocksForNotion, he, hgt]
      constructor
      · rw [hform]; omega
      · intro h
        exact absurd h hgt

/-- A 2100-character reason text. -/
def bigA : String := String.mk (List.replicate 2100 'a')

/-- A pick whose serialization exceeds the 2000-character budget. -/
def bigPick : StockPick :=
  { reason := PyVal.vStr bigA, price := PyVal.vStr "N/A", weeklyChange := PyVal.vStr "N/A" }

/-- Witness for C2: on `[bigPick]` the serialization has 2116 characters and
the projection is the truncated 1998-character string. -/
theorem c2_witness :
    2000 < (notionFullString [bigPick]).length ∧
    formatStocksForNotion [bigPick] = strTake (notionFullString [bigPick]) 1995 ++ "..." ∧
    (formatStocksForNotion [bigPick]).length = 1998 := by
  have h1 : notionFullString [bigPick] = "[1. N/A (N/A): " ++ bigA ++ "]" := by rfl
  have hlen : (notionFullString [bigPick]).length = 2116 := by
    rw [h1, strLen_append, strLen_append]
    have hA : bigA.length = 2100 := by
      show (List.replicate 2100 'a').length = 2100
      rw [List.length_replicate]
    rw [hA]
    decide
  have hgt : 2000 < (notionFullString [bigPick]).length := by rw [hlen]; omega
  exact ⟨hgt, ((c2_notion_truncation [bigPick]).2 hgt).1,
    ((c2_notion_truncation [bigPick]).2 hgt).2⟩

/- ===== Claim C7 (counterexample part) ===== -/

/-- C7 counterexample: the compact rich-text projection of an **empty** stock
sequence is the **empty string** (`crawler.py` lines 458-459), not a non-empty
placeholder as the claim states. -/
theorem c7_counterexample : formatStocksForNotion [] = "" := rfl

/- ===== Market-data fetchers ===== -/

/-- Outcome of an external API call: a normal result, or a raised exception
with its message. -/
inductive FetchOutcome (α : Type) where
  | ok (a : α)
  | exn (msg : String)

/-- Python `str.upper()` (the ticker codes are ASCII). -/
def strUpper (s : String) : String := String.mk (s.data.map Char.toUpper)

/-- Python `needle in hay` substring test. -/
def hasSub (needle : List Char) : List Char → Bool
  | [] => List.isPrefixOf needle []
  | c :: t => List.isPrefixOf needle (c :: t) || hasSub needle t

/-- Python `sub in hay` on strings. -/
def strHas (hay sub : String) : Bool := hasSub sub.data hay.data

/-- Worker for `str.replace` (all occurrences, left-to-right, non-overlapping):
`skip` counts characters still to be dropped from a previous match. -/
def replaceAux (needle repl : List Char) : Nat → List Char → List Char
  | _, [] => []
  | Nat.succ k, _ :: t => replaceAux needle repl k t
  | 0, c :: t =>
    if !needle.isEmpty && List.isPrefixOf needle (c :: t) then
      repl ++ replaceAux needle repl (needle.length - 1) t
    else c :: replaceAux needle repl 0 t

/-- Python `hay.replace(needle, repl)` for a non-empty needle. -/
def replaceList (needle repl l : List Char) : List Char := replaceAux needle repl 0 l

/-- Python `str.zfill(width)`: left-pad with zeros to `width`, keeping a
leading sign in front of the padding. -/
def zfill (width : Nat) (s : String) : String :=
  if width ≤ s.data.length then s
  else
    match s.data with
    | [] => String.mk (List.replicate width '0')
    | c :: t =>
      if c = '+' ∨ c = '-' then
        String.mk (c :: (List.replicate (width - (t.length + 1)) '0' ++ t))
      else String.mk (List.replicate (width - (t.length + 1)) '0' ++ (c :: t))

/-- The Yahoo-link ticker adaptation of `_get_cn_hk_stock_data` (`crawler.py`
lines 369-375): for a ticker containing `.HK` whose numeric part (everything
but `.HK`, uppercased) is shorter than 4 characters, zero-pad it to 4 digits
and re-append `.HK`; otherwise keep the original code. -/
def yahooCodeOf (stockCode : String) : String :=
  if strHas (strUpper stockCode) ".HK" then
    let numericPart := replaceList (".HK").data [] (strUpper stockCode).data
    if numericPart.length < 4 then zfill 4 (String.mk numericPart) ++ ".HK"
    else stockCode
  else stockCode

/-- One row of the Tushare `daily_basic` dataframe (`crawler.py` line 380);
the dataframe floats are modelled as exact rationals. -/
structure DailyBasic where
  close : ℚ
  pe_ttm : ℚ
  pb : ℚ
  total_mv : ℚ
  change_pct : ℚ

/-- The dictionary returned by `_get_cn_hk_stock_data` on success. -/
structure CnHkData where
  price : PyVal
  weeklyChange : PyVal
  marketCap : PyVal
  peRatio : PyVal
  pbRatio : PyVal
  sourceLink : PyVal
deriving DecidableEq

/-- The success-path dictionary construction of `_get_cn_hk_stock_data`
(`crawler.py` lines 389-396): CNY for `.SH`/`.SZ` codes else HKD, market value
rescaled from 万 to billions (`total_mv / 10000`, `:.2f`), P/E and P/B kept as
numbers, and the Yahoo link built from the (possibly zero-padded) code. -/
def mkCnHkData (row : DailyBasic) (tushareCode yahooCode : String) : CnHkData :=
  { price := PyVal.vStr (renderQ row.close ++
      (if strHas tushareCode ".SH" || strHas tushareCode ".SZ" then " CNY" else " HKD"))
    weeklyChange := PyVal.vNum row.change_pct
    marketCap := PyVal.vStr (fmt2 (row.total_mv / 10000) ++ " B")
    peRatio := PyVal.vNum row.pe_ttm
    pbRatio := PyVal.vNum row.pb
    sourceLink := PyVal.vStr ("https://finance.yahoo.com/quote/" ++ yahooCode) }

/-- `_get_cn_hk_stock_data` (`crawler.py` lines 354-409).  Absent credential:
return no data before any string work.  NOTE: `stock_code.upper()` (line 367)
runs **outside** the `try` block, so a non-string `stock_code` raises an
`AttributeError` to the caller; all fetch outcomes (the `daily_basic` call and
row extraction, which sit inside the `try`) are absorbed: an empty dataframe
and every exception — with the "insufficient API privilege" message class
tested separately but handled identically — yield no data. -/
def getCnHkStockData (hasKey : Bool) (outcome : FetchOutcome (Option DailyBasic))
    (stockCode : PyVal) : Except String (Option CnHkData) :=
  if !hasKey then Except.ok Option.none
  else
    match stockCode with
    | PyVal.vNone => Except.error "AttributeError: NoneType object has no attribute upper"
    | PyVal.vNum _ => Except.error "AttributeError: float object has no attribute upper"
    | PyVal.vStr s =>
      match outcome with
      | FetchOutcome.ok (some row) =>
        Except.ok (some (mkCnHkData row (strUpper s) (yahooCodeOf s)))
      | FetchOutcome.ok Option.none => Except.ok Option.none
      | FetchOutcome.exn msg =>
        if strHas msg "没有接口访问权限" || strHas msg "权限的具体详情" then
          Except.ok Option.none
        else Except.ok Option.none

/-- The `Global Quote` fields used by `_get_us_stock_data` (provider values are
JSON strings). -/
structure UsQuote where
  priceRaw : Option String
  changeRaw : Option String

/-- The `OVERVIEW` fields used by `_get_us_stock_data`. -/
structure UsOverview where
  marketCapRaw : Option String
  peRaw : Option String
  psRaw : Option String
  roeRaw : Option String
  pbRaw : Option String

/-- The dictionary returned by `_get_us_stock_data` on success. -/
structure UsData where
  price : PyVal
  weeklyChange : PyVal
  marketCap : PyVal
  peRatio : PyVal
  psRatio : PyVal
  roeRatio : PyVal
  pbRatio : PyVal
  sourceLink : PyVal
deriving DecidableEq

/-- Python `s.strip('%')`: remove leading and trailing runs of `%`. -/
def stripPercent (s : String) : String :=
  String.mk (((s.data.dropWhile (· = '%')).reverse.dropWhile (· = '%')).reverse)

/-- Python `s.replace('.', '', 1)`: remove the first `.` only. -/
def removeFirstDot : List Char → List Char
  | [] => []
  | c :: t => if c = '.' then t else c :: removeFirstDot t

/-- The numeric test of `_get_us_stock_data` line 339:
`weekly_change.replace('.', '', 1).isdigit()` — Python `isdigit` is false on
the empty string (digits are modelled as ASCII digits, which is what the
provider's percent strings contain). -/
def pyFloatCond (l : List Char) : Bool :=
  !(removeFirstDot l).isEmpty && (removeFirstDot l).all Char.isDigit

/-- Value of an ASCII digit string. -/
def digitsToNat (l : List Char) : Nat := l.foldl (fun n c => n * 10 + (c.toNat - 48)) 0

/-- Python `float(s)` for a string of digits with at most one dot (the only
strings on which the code calls it), as an exact rational. -/
def parseDec (l : List Char) : ℚ :=
  let ipart := l.takeWhile (fun c => c ≠ '.')
  let fpart := (l.dropWhile (fun c => c ≠ '.')).drop 1
  (digitsToNat ipart : ℚ) + (digitsToNat fpart : ℚ) / ((10 : ℚ) ^ fpart.length)

/-- The market-cap humanization of `_get_us_stock_data` (`crawler.py` lines
328-335): an all-digit string is parsed and rescaled to a `T`/`B`-suffixed
two-decimal figure above the 10^12 / 10^9 thresholds. -/
def marketCapTransform (mc : String) : String :=
  if !mc.data.isEmpty && mc.data.all Char.isDigit then
    let v := digitsToNat mc.data
    if 1000000000000 ≤ v then fmt2 ((v : ℚ) / 1000000000000) ++ " T"
    else if 1000000000 ≤ v then fmt2 ((v : ℚ) / 1000000000) ++ " B"
    else toString v
  else mc

/-- `_get_us_stock_data` (`crawler.py` lines 290-352).  Absent credential:
no data.  The whole quote/overview interaction sits inside one `try`, so any
exception yields no data, as does an empty `Global Quote`; on success the
returned dictionary keeps `weeklyChange` numeric only when the `%`-stripped
percent string passes `replace('.', '', 1).isdigit()`. -/
def getUsStockData (hasKey : Bool) (quoteOutcome : FetchOutcome (Option UsQuote))
    (overviewOutcome : FetchOutcome UsOverview) (stockCode : PyVal) :
    Except String (Option UsData) :=
  if !hasKey then Except.ok Option.none
  else
    match quoteOutcome with
    | FetchOutcome.exn _ => Except.ok Option.none
    | FetchOutcome.ok Option.none => Except.ok Option.none
    | FetchOutcome.ok (some q) =>
      let price := q.priceRaw.getD "N/A"
      let weekly := stripPercent (q.changeRaw.getD "N/A")
      match overviewOutcome with
      | FetchOutcome.exn _ => Except.ok Option.none
      | FetchOutcome.ok ov =>
        Except.ok (some
          { price := PyVal.vStr (price ++ " USD")
            weeklyChange :=
              if pyFloatCond weekly.data then PyVal.vNum (parseDec weekly.data)
              else PyVal.vStr "N/A"
            marketCap := PyVal.vStr (marketCapTransform (ov.marketCapRaw.getD "N/A"))
            peRatio := PyVal.vStr (ov.peRaw.getD "N/A")
            psRatio := PyVal.vStr (ov.psRaw.getD "N/A")
            roeRatio := PyVal.vStr (ov.roeRaw.getD "N/A")
            pbRatio := PyVal.vStr (ov.pbRaw.getD "N/A")
            sourceLink := PyVal.vStr
              ("https://www.alphavantage.co/query?function=OVERVIEW&symbol="
                ++ pyInterp stockCode) })

/- ===== The enricher ===== -/

/-- `stock.update(data)` for the US dictionary. -/
def applyUsData (stock : StockPick) (d : UsData) : StockPick :=
  { stock with
    price := d.price
    weeklyChange := d.weeklyChange
    marketCap := d.marketCap
    peRatio := d.peRatio
    psRatio := d.psRatio
    roeRatio := d.roeRatio
    pbRatio := d.pbRatio
    sourceLink := d.sourceLink }

/-- `stock.update(data)` for the CN/HK dictionary. -/
def applyCnHkData (stock : StockPick) (d : CnHkData) : StockPick :=
  { stock with
    price := d.price
    weeklyChange := d.weeklyChange
    marketCap := d.marketCap
    peRatio := d.peRatio
    pbRatio := d.pbRatio
    sourceLink := d.sourceLink }

/-- The US failure branch of `_enrich_stock_data` (`crawler.py` lines 428-436):
every optional field becomes the `"N/A"` sentinel and the source link the
Yahoo fallback built from the ticker code. -/
def usFallback (stock : StockPick) : StockPick :=
  { stock with
    price := PyVal.vStr "N/A"
    marketCap := PyVal.vStr "N/A"
    weeklyChange := PyVal.vStr "N/A"
    peRatio := PyVal.vStr "N/A"
    psRatio := PyVal.vStr "N/A"
    roeRatio := PyVal.vStr "N/A"
    pbRatio := PyVal.vStr "N/A"
    sourceLink := PyVal.vStr ("https://finance.yahoo.com/quote/" ++ pyInterp stock.stockCode) }

/-- The HK/CN failure branch of `_enrich_stock_data` (`crawler.py` lines
443-450); note the fallback link uses the **raw** ticker code (no
zero-padding). -/
def cnHkFallback (stock : StockPick) : StockPick :=
  { stock with
    price := PyVal.vStr "N/A"
    marketCap := PyVal.vStr "N/A"
    weeklyChange := PyVal.vStr "N/A"
    peRatio := PyVal.vStr "N/A"
    pbRatio := PyVal.vStr "N/A"
    sourceLink := PyVal.vStr ("https://finance.yahoo.com/quote/" ++ pyInterp stock.stockCode) }

/-- The per-pick body of `_enrich_stock_data`'s loop (`crawler.py` lines
420-452), with the two market-specific fetchers passed as functions (they may
raise, which would propagate out of the loop). -/
def enrichOneE (marketType : String) (fUs : PyVal → Except String (Option UsData))
    (fCn : PyVal → Except String (Option CnHkData)) (stock : StockPick) :
    Except String StockPick :=
  if marketType = "us" then
    match fUs stock.stockCode with
    | Except.error e => Except.error e
    | Except.ok (some d) => Except.ok (applyUsData stock d)
    | Except.ok Option.none => Except.ok (usFallback stock)
  else if marketType = "hk" ∨ marketType = "cn" then
    match fCn stock.stockCode with
    | Except.error e => Except.error e
    | Except.ok (some d) => Except.ok (applyCnHkData stock d)
    | Except.ok Option.none => Except.ok (cnHkFallback stock)
  else Except.ok stock

/-- The enrichment loop over a pick list, stopping at the first propagated
exception. -/
def enrichListE (marketType : String) (fUs : PyVal → Except String (Option UsData))
    (fCn : PyVal → Except String (Option CnHkData)) :
    List StockPick → Except String (List StockPick)
  | [] => Except.ok []
  | s :: rest =>
    match enrichOneE marketType fUs fCn s with
    | Except.error e => Except.error e
    | Except.ok s' =>
      match enrichListE marketType fUs fCn rest with
      | Except.error e => Except.error e
      | Except.ok rest' => Except.ok (s' :: rest')

/-- `_enrich_stock_data` (`crawler.py` lines 412-454). -/
def enrichStockDataE (marketType : String) (fUs : PyVal → Except String (Option UsData))
    (fCn : PyVal → Except String (Option CnHkData)) (stocks : List StockPick) :
    Except String (List StockPick) :=
  if stocks.isEmpty then Except.ok [] else enrichListE marketType fUs fCn stocks

/-- What the failure branch does to one pick, per market type. -/
def enrichFallback (marketType : String) (stock : StockPick) : StockPick :=
  if marketType = "us" then usFallback stock
  else if marketType = "hk" ∨ marketType = "cn" then cnHkFallback stock
  else stock

/- ===== Claim C1 ===== -/

theorem enrichOneE_fallback (marketType : String)
    (fUs : PyVal → Except String (Option UsData))
    (fCn : PyVal → Except String (Option CnHkData))
    (hUs : ∀ c, fUs c = Except.ok Option.none)
    (hCn : ∀ c, fCn c = Except.ok Option.none) (p : StockPick) :
    enrichOneE marketType fUs fCn p = Except.ok (enrichFallback marketType p) := by
  by_cases h1 : marketType = "us"
  · simp [enrichOneE, enrichFallback, h1, hUs]
  · by_cases h2 : marketType = "hk" ∨ marketType = "cn"
    · simp [enrichOneE, enrichFallback, h1, h2, hCn]
    · simp [enrichOneE, enrichFallback, h1, h2]

/-- C1: enriching any pick sequence of any of the three markets with the
provider credential absent or every per-pick fetch failing (both of which make
the fetcher yield no data — last conjunct) replaces each pick by its fallback
form, whose market-appropriate optional fields are all the `"N/A"` sentinel
string (never absent) and whose source link is the Yahoo fallback built purely
from the ticker code. -/
theorem c1_enrich_failure_sentinels (marketType : String)
    (hmt : marketType = "us" ∨ marketType = "hk" ∨ marketType = "cn")
    (fUs : PyVal → Except String (Option UsData))
    (fCn : PyVal → Except String (Option CnHkData))
    (hUs : ∀ c, fUs c = Except.ok Option.none)
    (hCn : ∀ c, fCn c = Except.ok Option.none)
    (picks : List StockPick) :
    enrichStockDataE marketType fUs fCn picks
      = Except.ok (picks.map (enrichFallback marketType)) ∧
    (∀ p : StockPick,
      (enrichFallback marketType p).price = PyVal.vStr "N/A" ∧
      (enrichFallback marketType p).marketCap = PyVal.vStr "N/A" ∧
      (enrichFallback marketType p).weeklyChange = PyVal.vStr "N/A" ∧
      (enrichFallback marketType p).peRatio = PyVal.vStr "N/A" ∧
      (enrichFallback marketType p).pbRatio = PyVal.vStr "N/A" ∧
      (marketType = "us" →
        (enrichFallback marketType p).psRatio = PyVal.vStr "N/A" ∧
        (enrichFallback marketType p).roeRatio = PyVal.vStr "N/A") ∧
      (enrichFallback marketType p).sourceLink
        = PyVal.vStr ("https://finance.yahoo.com/quote/" ++ pyInterp p.stockCode)) ∧
    ((∀ q o c, getUsStockData false q o c = Except.ok Option.none) ∧
     (∀ o m c, getUsStockData true (FetchOutcome.exn m) o c = Except.ok Option.none) ∧
     (∀ o c, getCnHkStockData false o c = Except.ok Option.none) ∧
     (∀ m s, getCnHkStockData true (FetchOutcome.exn m) (PyVal.vStr s)
        = Except.ok Option.none)) := by
  refine ⟨?_, ?_, ?_, ?_, ?_, ?_⟩
  · unfold enrichStockDataE
    by_cases he : picks.isEmpty
    · rw [if_pos he, List.isEmpty_iff.mp he]
      rfl
    · rw [if_neg he]
      clear he
      induction picks with
      | nil => rfl
      | cons p rest ih =>
        simp only [enrichListE, enrichOneE_fallback marketType fUs fCn hUs hCn p, ih,
          List.map_cons]
  · intro p
    rcases hmt with h | h | h <;> subst h <;>
      simp [enrichFallback, usFallback, cnHkFallback]
  · intro q o c
    rfl
  · intro o m c
    rfl
  · intro o c
    rfl
  · intro m s
    simp [getCnHkStockData]

/-- Witness for C1: an HK pick with the fetcher yielding no data. -/
theorem c1_witness :
    enrichStockDataE "hk" (fun _ => Except.ok Option.none) (fun _ => Except.ok Option.none)
        [{ stockCode := PyVal.vStr "0700.HK" }]
      = Except.ok [enrichFallback "hk" { stockCode := PyVal.vStr "0700.HK" }] ∧
    (enrichFallback "hk" { stockCode := PyVal.vStr "0700.HK" }).price = PyVal.vStr "N/A" ∧
    (enrichFallback "hk" { stockCode := PyVal.vStr "0700.HK" }).sourceLink
      = PyVal.vStr ("https://finance.yahoo.com/quote/"
          ++ pyInterp (PyVal.vStr "0700.HK")) := by
  have h := c1_enrich_failure_sentinels "hk" (Or.inr (Or.inl rfl))
    (fun _ => Except.ok Option.none) (fun _ => Except.ok Option.none)
    (fun _ => rfl) (fun _ => rfl) [{ stockCode := PyVal.vStr "0700.HK" }]
  exact ⟨h.1, (h.2.1 _).1, (h.2.1 _).2.2.2.2.2.2⟩

/- ===== Claim C6 ===== -/

/-- The Tencent-style 3-digit HK pick. -/
def pick700 : StockPick := { stockCode := PyVal.vStr "700.HK" }

/-- C6 counterexample: when the HK fetch fails (or is skipped), the fallback
link produced by the enricher for the 3-digit ticker `700.HK` uses the **raw
unpadded** ticker, not the 4-digit zero-padded form the claim asserts. -/
theorem c6_counterexample :
    enrichStockDataE "hk" (fun _ => Except.ok Option.none) (fun _ => Except.ok Option.none)
        [pick700]
      = Except.ok [cnHkFallback pick700] ∧
    (cnHkFallback pick700).sourceLink = PyVal.vStr "https://finance.yahoo.com/quote/700.HK" ∧
    ("https://finance.yahoo.com/quote/700.HK" : String)
      ≠ "https://finance.yahoo.com/quote/0700.HK" := by
  refine ⟨?_, rfl, by decide⟩
  rfl

/-- C6 amended: the zero-padding rule applies to the link built by
`_get_cn_hk_stock_data` on a **successful** fetch (pad a `<`-4-digit HK
numeric part to 4 digits, leave a 4-digit one unpadded), while the fallback
link produced when the fetch fails or is skipped always uses the raw unpadded
ticker code. -/
theorem c6_padding_success_only (s : String) (row : DailyBasic) (p : StockPick) :
    getCnHkStockData true (FetchOutcome.ok (some row)) (PyVal.vStr s)
      = Except.ok (some (mkCnHkData row (strUpper s) (yahooCodeOf s))) ∧
    (mkCnHkData row (strUpper s) (yahooCodeOf s)).sourceLink
      = PyVal.vStr ("https://finance.yahoo.com/quote/" ++ yahooCodeOf s) ∧
    yahooCodeOf "700.HK" = "0700.HK" ∧
    yahooCodeOf "0700.HK" = "0700.HK" ∧
    (cnHkFallback p).sourceLink
      = PyVal.vStr ("https://finance.yahoo.com/quote/" ++ pyInterp p.stockCode) := by
  exact ⟨rfl, rfl, by decide, by decide, rfl⟩

/- ===== Claim C9 ===== -/

theorem getCnHkStockData_ok (hasKey : Bool) (outcome : FetchOutcome (Option DailyBasic))
    (s : String) : ∃ r, getCnHkStockData hasKey outcome (PyVal.vStr s) = Except.ok r := by
  cases hasKey with
  | false => exact ⟨Option.none, rfl⟩
  | true =>
    cases outcome with
    | ok o =>
      cases o with
      | none => exact ⟨Option.none, rfl⟩
      | some row => exact ⟨some (mkCnHkData row (strUpper s) (yahooCodeOf s)), rfl⟩
    | exn m =>
      refine ⟨Option.none, ?_⟩
      simp [getCnHkStockData]

/-- C9: on the HK/CN path, for every per-pick fetch outcome — empty data,
network errors, malformed responses, the "insufficient API privilege" error
class, all modelled by the outcome oracle — `_get_cn_hk_stock_data` absorbs
the failure and returns the no-data result instead of raising (conjuncts 2-3),
so the enrichment loop over any sequence of picks (whose ticker codes are
strings, per the data-model invariant) completes without aborting and yields
one enriched pick per input pick (conjunct 1). -/
theorem c9_fetch_never_raises (marketType : String)
    (hmt : marketType = "hk" ∨ marketType = "cn") (hasKey : Bool)
    (oracle : PyVal → FetchOutcome (Option DailyBasic))
    (fUs : PyVal → Except String (Option UsData))
    (picks : List StockPick)
    (hcodes : ∀ p ∈ picks, ∃ s, p.stockCode = PyVal.vStr s) :
    (∃ out, enrichStockDataE marketType fUs
        (fun c => getCnHkStockData hasKey (oracle c) c) picks = Except.ok out ∧
      out.length = picks.length) ∧
    (∀ m s, getCnHkStockData hasKey (FetchOutcome.exn m) (PyVal.vStr s)
        = Except.ok Option.none) ∧
    (∀ s, getCnHkStockData hasKey (FetchOutcome.ok Option.none) (PyVal.vStr s)
        = Except.ok Option.none) := by
  have hus : ¬ (marketType = "us") := by
    rcases hmt with h | h <;> subst h <;> decide
  have hhkcn : marketType = "hk" ∨ marketType = "cn" := hmt
  refine ⟨?_, ?_, ?_⟩
  · have hone : ∀ p : StockPick, (∃ s, p.stockCode = PyVal.vStr s) →
        ∃ p', enrichOneE marketType fUs (fun c => getCnHkStockData hasKey (oracle c) c) p
          = Except.ok p' := by
      intro p hp
      obtain ⟨s, hs⟩ := hp
      obtain ⟨r, hr⟩ := getCnHkStockData_ok hasKey (oracle p.stockCode) s
      rw [hs] at hr
      unfold enrichOneE
      rw [if_neg hus, if_pos hhkcn]
      simp only [hs]
      rw [hr]
      cases r with
      | none => exact ⟨cnHkFallback p, rfl⟩
      | some d => exact ⟨applyCnHkData p d, rfl⟩
    have hlist : ∀ l : List StockPick, (∀ p ∈ l, ∃ s, p.stockCode = PyVal.vStr s) →
        ∃ out, enrichListE marketType fUs
          (fun c => getCnHkStockData hasKey (oracle c) c) l = Except.ok out
          ∧ out.length = l.length := by
      intro l hl
      induction l with
      | nil => exact ⟨[], rfl, rfl⟩
      | cons p rest ih =>
        obtain ⟨p', hp'⟩ := hone p (hl p (List.mem_cons_self _ _))
        obtain ⟨out, hout, hlen⟩ := ih (fun x hx => hl x (List.mem_cons_of_mem _ hx))
        refine ⟨p' :: out, ?_, by simp [hlen]⟩
        simp only [enrichListE, hp', hout]
    by_cases he : picks.isEmpty
    · refine ⟨[], ?_, ?_⟩
      · unfold enrichStockDataE
        rw [if_pos he]
      · rw [List.isEmpty_iff.mp he]
    · obtain ⟨out, hout, hlen⟩ := hlist picks hcodes
      refine ⟨out, ?_, hlen⟩
      unfold enrichStockDataE
      rw [if_neg he, hout]
  · intro m s
    cases hasKey <;> simp [getCnHkStockData]
  · intro s
    cases hasKey <;> rfl

/-- Witness for C9: one HK pick, privilege-error outcome. -/
theorem c9_witness :
    (∃ out, enrichStockDataE "hk" (fun _ => Except.ok Option.none)
        (fun c => getCnHkStockData true
          (FetchOutcome.exn "抱歉，您没有接口访问权限") c) [pick700]
      = Except.ok out ∧ out.length = 1) ∧
    getCnHkStockData true (FetchOutcome.exn "抱歉，您没有接口访问权限")
        (PyVal.vStr "700.HK") = Except.ok Option.none := by
  have h := c9_fetch_never_raises "hk" (Or.inl rfl) true
    (fun _ => FetchOutcome.exn "抱歉，您没有接口访问权限")
    (fun _ => Except.ok Option.none) [pick700]
    (by intro p hp
        rcases List.mem_cons.mp hp with h | h
        · exact ⟨"700.HK", by rw [h]; rfl⟩
        · simp at h)
  exact ⟨h.1, h.2.1 "抱歉，您没有接口访问权限" "700.HK"⟩

/- ===== Claim C10 ===== -/

theorem removeFirstDot_of_notMem (l : List Char) (h : '.' ∉ l) : removeFirstDot l = l := by
  induction l with
  | nil => rfl
  | cons c t ih =>
    simp only [List.mem_cons, not_or] at h
    have hc : ¬ (c = '.') := fun hh => h.1 hh.symm
    simp [removeFirstDot, hc, ih h.2]

theorem removeFirstDot_append (a b : List Char) (h : '.' ∉ a) :
    removeFirstDot (a ++ '.' :: b) = a ++ b := by
  induction a with
  | nil => simp [removeFirstDot]
  | cons c t ih =>
    simp only [List.mem_cons, not_or] at h
    have hc : ¬ (c = '.') := fun hh => h.1 hh.symm
    simp [removeFirstDot, hc, ih h.2]

theorem firstDotSplit (l : List Char) (h : '.' ∈ l) :
    ∃ a b, l = a ++ '.' :: b ∧ '.' ∉ a := by
  induction l with
  | nil => simp at h
  | cons c t ih =>
    by_cases hc : c = '.'
    · exact ⟨[], t, by rw [hc]; rfl, by simp⟩
    · have hmem : '.' ∈ t := by
        rcases List.mem_cons.mp h with h1 | h1
        · exact absurd h1.symm hc
        · exact h1
      obtain ⟨a, b, heq, hna⟩ := ih hmem
      refine ⟨c :: a, b, by rw [heq]; rfl, ?_⟩
      simp only [List.mem_cons, not_or]
      exact ⟨fun hh => hc hh.symm, hna⟩

theorem pyFloatCond_eq_true_iff (l : List Char) :
    pyFloatCond l = true ↔
      (removeFirstDot l ≠ [] ∧ ∀ c ∈ removeFirstDot l, c.isDigit = true) := by
  unfold pyFloatCond
  rw [Bool.and_eq_true, List.all_eq_true]
  constructor
  · rintro ⟨h1, h2⟩
    refine ⟨?_, h2⟩
    intro he
    rw [he] at h1
    simp at h1
  · rintro ⟨h1, h2⟩
    refine ⟨?_, h2⟩
    cases hr : removeFirstDot l with
    | nil => exact absurd hr h1
    | cons c t => rfl

/-- The digit count is unchanged by dropping the first dot. -/
theorem countP_removeFirstDot (l : List Char) :
    (removeFirstDot l).countP (fun c => c.isDigit) = l.countP (fun c => c.isDigit) := by
  induction l with
  | nil => rfl
  | cons c t ih =>
    by_cases hc : c = '.'
    · subst hc
      have hd : ('.').isDigit = false := by decide
      simp [removeFirstDot, List.countP_cons, hd]
    · simp [removeFirstDot, hc, List.countP_cons, ih]

/-- The source's numeric test `replace('.', '', 1).isdigit()` holds exactly
when the string consists solely of digits with at most one `.` (and at least
one digit). -/
theorem pyFloatCond_iff (l : List Char) :
    pyFloatCond l = true ↔
      ((∀ c ∈ l, c.isDigit = true ∨ c = '.') ∧ List.count '.' l ≤ 1 ∧
        ∃ c ∈ l, c.isDigit = true) := by
  by_cases hd : '.' ∈ l
  · obtain ⟨a, b, rfl, hna⟩ := firstDotSplit l hd
    rw [pyFloatCond_eq_true_iff, removeFirstDot_append a b hna]
    constructor
    · rintro ⟨h1, h2⟩
      have hnb : '.' ∉ b := by
        intro hb
        have := h2 '.' (List.mem_append.mpr (Or.inr hb))
        exact absurd this (by decide)
      refine ⟨?_, ?_, ?_⟩
      · intro c hc
        rcases List.mem_append.mp hc with h | h
        · exact Or.inl (h2 c (List.mem_append.mpr (Or.inl h)))
        · rcases List.mem_cons.mp h with h | h
          · exact Or.inr h
          · exact Or.inl (h2 c (List.mem_append.mpr (Or.inr h)))
      · have hca : List.count '.' a = 0 := List.count_eq_zero.mpr hna
        have hcb : List.count '.' b = 0 := List.count_eq_zero.mpr hnb
        simp [List.count_append, List.count_cons, hca, hcb]
      · obtain ⟨c, hc⟩ := List.exists_mem_of_ne_nil _ h1
        refine ⟨c, ?_, h2 c hc⟩
        rcases List.mem_append.mp hc with h | h
        · exact List.mem_append.mpr (Or.inl h)
        · exact List.mem_append.mpr (Or.inr (List.mem_cons_of_mem _ h))
    · rintro ⟨h1, h2, c, hc, hdig⟩
      have hcb : '.' ∉ b := by
        intro hb
        have hcount : 2 ≤ List.count '.' (a ++ '.' :: b) := by
          have h1b : 0 < List.count '.' b := List.count_pos_iff.mpr hb
          simp only [List.count_append, List.count_cons_self]
          omega
        omega
      constructor
      · have hcne : c ≠ '.' := by
          intro h
          rw [h] at hdig
          exact absurd hdig (by decide)
        have hcab : c ∈ a ++ b := by
          rcases List.mem_append.mp hc with h | h
          · exact List.mem_append.mpr (Or.inl h)
          · rcases List.mem_cons.mp h with h | h
            · exact absurd h hcne
            · exact List.mem_append.mpr (Or.inr h)
        exact List.ne_nil_of_mem hcab
      · intro x hx
        rcases List.mem_append.mp hx with h | h
        · rcases h1 x (List.mem_append.mpr (Or.inl h)) with hh | hh
          · exact hh
          · exact absurd (hh ▸ h) hna
        · rcases h1 x (List.mem_append.mpr (Or.inr (List.mem_cons_of_mem _ h))) with hh | hh
          · exact hh
          · exact absurd (hh ▸ h) hcb
  · have hr := removeFirstDot_of_notMem l hd
    rw [pyFloatCond_eq_true_iff, hr]
    constructor
    · rintro ⟨h1, h2⟩
      refine ⟨fun c hc => Or.inl (h2 c hc), ?_, ?_⟩
      · have : List.count '.' l = 0 := List.count_eq_zero.mpr hd
        omega
      · obtain ⟨c, hc⟩ := List.exists_mem_of_ne_nil l h1
        exact ⟨c, hc, h2 c hc⟩
    · rintro ⟨h1, h2, c, hc, hdig⟩
      refine ⟨List.ne_nil_of_mem hc, ?_⟩
      intro x hx
      rcases h1 x hx with h | h
      · exact h
      · exact absurd (h ▸ hx) hd

/-- A string with a leading minus sign never passes the numeric test. -/
theorem pyFloatCond_neg_false (t : List Char) : pyFloatCond ('-' :: t) = false := by
  unfold pyFloatCond
  have hrm : removeFirstDot ('-' :: t) = '-' :: removeFirstDot t := by
    simp [removeFirstDot]
  have hd : ('-').isDigit = false := by decide
  rw [hrm]
  simp [List.all_cons, hd]

/-- C10: on a successful US quote fetch, the `weeklyChange` field is the
parsed number exactly when the `%`-stripped percent string consists solely of
digits with at most one `.` (and at least one digit); in particular any
percent string with a leading `-` sign yields the `"N/A"` sentinel, so
negative weekly changes are never reported numerically on this path. -/
theorem c10_weekly_change_condition (priceRaw : Option String) (ov : UsOverview)
    (code : PyVal) (chg : String) :
    ∃ d, getUsStockData true
        (FetchOutcome.ok (some { priceRaw := priceRaw, changeRaw := some chg }))
        (FetchOutcome.ok ov) code = Except.ok (some d) ∧
      d.weeklyChange = (if pyFloatCond (stripPercent chg).data
          then PyVal.vNum (parseDec (stripPercent chg).data) else PyVal.vStr "N/A") ∧
      (pyFloatCond (stripPercent chg).data = true ↔
        ((∀ c ∈ (stripPercent chg).data, c.isDigit = true ∨ c = '.') ∧
         List.count '.' (stripPercent chg).data ≤ 1 ∧
         ∃ c ∈ (stripPercent chg).data, c.isDigit = true)) ∧
      ((stripPercent chg).data.head? = some '-' → d.weeklyChange = PyVal.vStr "N/A") := by
  refine ⟨_, rfl, rfl, pyFloatCond_iff _, ?_⟩
  intro hh
  cases hsd : (stripPercent chg).data with
  | nil =>
    rw [hsd] at hh
    simp at hh
  | cons c t =>
    rw [hsd] at hh
    simp only [List.head?_cons, Option.some.injEq] at hh
    subst hh
    simp [hsd, pyFloatCond_neg_false]

/-- Witness for C10 at the concrete percent string `"-1.23%"`. -/
theorem c10_witness :
    ∃ d, getUsStockData true
        (FetchOutcome.ok (some { priceRaw := some "10.00", changeRaw := some "-1.23%" }))
        (FetchOutcome.ok ⟨Option.none, Option.none, Option.none, Option.none, Option.none⟩)
        (PyVal.vStr "AAPL") = Except.ok (some d) ∧
      d.weeklyChange = PyVal.vStr "N/A" := by
  obtain ⟨d, h1, h2, h3, h4⟩ := c10_weekly_change_condition (some "10.00")
    ⟨Option.none, Option.none, Option.none, Option.none, Option.none⟩
    (PyVal.vStr "AAPL") "-1.23%"
  exact ⟨d, h1, h4 (by decide)⟩

/- ===== The report model and the HTML projection (`_format_html_report`) ===== -/

/-- The `dailyCommentary` value: absent, plain text, or the keyed-mapping
failure mode. -/
inductive CommentaryVal where
  | absent
  | str (s : String)
  | dict (entries : List (String × PyVal))

/-- One `relatedNewsLinks` entry. -/
structure NewsLink where
  title : Option String := Option.none
  url : Option String := Option.none

/-- One `investmentPlan` entry. -/
structure PlanItem where
  assetName : Option String := Option.none
  assetType : Option String := Option.none
  allocationRatio : Option String := Option.none
  expectedGain : Option String := Option.none
  buyTiming : Option String := Option.none
  sellTiming : Option String := Option.none
  holdingStrategy : Option String := Option.none

/-- The `investmentPortfolio` object. -/
structure Portfolio where
  capital : Option String := Option.none
  targetAnnualReturn : Option String := Option.none
  portfolioSummary : Option String := Option.none
  investmentPlan : List PlanItem := []

/-- The normalized report dictionary (fields typed per the schema; string
fields are `Option String` with `none` = key absent). -/
structure Report where
  overallSentiment : Option String := Option.none
  overallSummary : Option String := Option.none
  dailyCommentary : CommentaryVal := CommentaryVal.absent
  investmentPortfolio : Option Portfolio := Option.none
  usTop10Stocks : List StockPick := []
  hkTop10Stocks : List StockPick := []
  cnTop10Stocks : List StockPick := []
  relatedNewsLinks : List NewsLink := []

/-- `data.get('investmentPortfolio', {}).get(field, 'N/A')`. -/
def pfGet (pf : Option Portfolio) (f : Portfolio → Option String) : String :=
  match pf with
  | some p => (f p).getD "N/A"
  | Option.none => "N/A"

/-- `data.get('investmentPortfolio', {}).get('investmentPlan', [])`. -/
def pfPlan (pf : Option Portfolio) : List PlanItem :=
  match pf with
  | some p => p.investmentPlan
  | Option.none => []

/-- Python `s.replace('\n', '<br><br>')`. -/
def replaceNl (s : String) : String :=
  String.mk (s.data.foldr
    (fun c acc => if c = Char.ofNat 10 then ("<br><br>").data ++ acc else c :: acc) [])

/-- Python `repr` of a string (quote subtleties elided; unreachable in the
pipeline, see `commentaryHtml`). -/
def pyReprStr (s : String) : String := "\x27" ++ s ++ "\x27"

/-- Python `str()` of a dict value. -/
def pyReprVal : PyVal → String
  | PyVal.vNone => "None"
  | PyVal.vStr s => pyReprStr s
  | PyVal.vNum q => renderQ q

/-- Python `str()` of a dict (the defensive fallback of `_format_html_report`
lines 651-655, reachable only if the normalizer's dict-flattening were
skipped). -/
def pyReprDict (entries : List (String × PyVal)) : String :=
  "\x7b" ++ joinSep ", " (entries.map (fun kv => pyReprStr kv.1 ++ ": " ++ pyReprVal kv.2))
    ++ "\x7d"

/-- `commentary_html` (`crawler.py` lines 648-655): get the commentary with
default `'N/A'`; a string has its newlines replaced by `<br><br>`, anything
else is `str()`-ed. -/
def commentaryHtml (r : Report) : String :=
  match r.dailyCommentary with
  | CommentaryVal.absent => replaceNl "N/A"
  | CommentaryVal.str s => replaceNl s
  | CommentaryVal.dict d => pyReprDict d

/- The literal chunks below are the f-string text of `_format_html_report`
(`crawler.py` lines 657-914), split at each interpolation point; braces and
apostrophes appear as their escape codes. -/
def htmlM0 : String :=
  "\n    <!DOCTYPE html>\n    <html>\n    <head>\n        <title>【理财分析】每周理财分析报告 - "

def htmlM1 : String :=
  "</title>\n        <meta charset=\"utf-8\">\n        <style>\n            body \x7b\n                font-family: -apple-system, BlinkMacSystemFont, \"Segoe UI\", Roboto, Helvetica, Arial, sans-serif;\n                margin: 0;\n                padding: 20px;\n                background-color: #f4f7f6;\n                color: #333;\n            \x7d\n            .container \x7b\n                max-width: 800px;\n                margin: 0 auto;\n                background-color: #ffffff;\n                border-radius: 12px;\n                box-shadow: 0 4px 20px rgba(0, 0, 0, 0.05);\n                padding: 30px;\n            \x7d\n            .header \x7b\n                text-align: center;\n                border-bottom: 2px solid #e0e0e0;\n                padding-bottom: 20px;\n                margin-bottom: 20px;\n            \x7d\n            .header h1 \x7b\n                font-size: 28px;\n                color: #1a1a1a;\n                margin: 0;\n            \x7d\n            .header p \x7b\n                color: #777;\n                font-size: 14px;\n                margin-top: 5px;\n            \x7d\n            .section \x7b\n                margin-bottom: 30px;\n            \x7d\n            .section-title \x7b\n                font-size: 22px;\n                color: #2c3e50;\n                border-left: 4px solid #3498db;\n                padding-left: 10px;\n                margin-bottom: 15px;\n            \x7d\n            .content p \x7b\n                line-height: 1.8;\n                font-size: 16px;\n            \x7d\n            .stock-table-container \x7b\n                overflow-x: auto;\n            \x7d\n            .stock-table \x7b\n                width: 100%;\n                border-collapse: collapse;\n                margin-bottom: 20px;\n            \x7d\n            .stock-table th, .stock-table td \x7b\n                padding: 12px;\n                border: 1px solid #e0e0e0;\n                text-align: left;\n                white-space: nowrap;\n                font-size: 13px;\n            \x7d\n            .stock-table th \x7b\n                background-color: #f0f0f0;\n                font-weight: bold;\n                font-size: 14px;\n            \x7d\n            .stock-table tr:nth-child(even) \x7b\n                background-color: #fafafa;\n            \x7d\n            .stock-table tr:hover \x7b\n                background-color: #f1f1f1;\n            \x7d\n            .link-section \x7b\n                margin-top: 20px;\n            \x7d\n            .link-section a \x7b\n                color: #3498db;\n                text-decoration: none;\n            \x7d\n            .link-section a:hover \x7b\n                text-decoration: underline;\n            \x7d\n        </style>\n    </head>\n    <body>\n        <div class=\"container\">\n            <div class=\"header\">\n                <h1>【理财分析】每周理财分析报告</h1>\n                <p>生成日期: "

def htmlM2 : String :=
  "</p>\n                <p>由 Gemini AI 提供分析，数据由 Alpha Vantage 和 Tushare 提供</p>\n            </div>\n\n            <div class=\"section\">\n                <h2 class=\"section-title\">核心分析</h2>\n                <div class=\"content\">\n                    <p><strong>整体市场情绪:</strong> "

def htmlM3 : String :=
  "</p>\n                    <p>"

def htmlM4 : String :=
  "</p>\n                </div>\n            </div>\n\n            <div class=\"section\">\n                <h2 class=\"section-title\">每周点评与预判</h2>\n                <div class=\"content\">\n                    "

def htmlM5 : String :=
  "\n                </div>\n            </div>\n            \n            <div class=\"section\">\n                <h2 class=\"section-title\">定制投资组合方案</h2>\n                <div class=\"content\">\n                    <h4>方案目标</h4>\n                    <p><strong>本金:</strong> "

def htmlM6 : String :=
  " | \n                       <strong>年化目标:</strong> "

def htmlM7 : String :=
  "\n                    </p>\n                    <h4>综合摘要</h4>\n                    <p>"

def htmlM8 : String :=
  "</p>\n                </div>\n                \n                <div class=\"stock-table-container\">\n                    <table class=\"stock-table\">\n                        <thead>\n                            <tr>\n                                <th>资产名称</th>\n                                <th>资产类型</th>\n                                <th>分配比例</th>\n                                <th>预期涨幅（含研判依据）</th>\n                                <th>买入建议</th>\n                                <th>卖出建议</th>\n                                <th>持有策略</th>\n                            </tr>\n                        </thead>\n                        <tbody>\n    "

-- main f-string interpolations: ['report_date', 'report_date', "data.get('overallSentiment', 'N/A')", "data.get('overallSummary', 'N/A')", 'commentary_html', 'CAP', 'TGT', 'PSUM']

def planR0 : String :=
  "\n                            <tr>\n                                <td>"

def planR1 : String :=
  "</td>\n                                <td>"

def planR2 : String :=
  "</td>\n                                <td>"

def planR3 : String :=
  "</td>\n                                <td>"

def planR4 : String :=
  "</td>\n                                <td>"

def planR5 : String :=
  "</td>\n                                <td>"

def planR6 : String :=
  "</td>\n                                <td><strong>"

def planR7 : String :=
  "</strong></td>\n                            </tr>\n            "

-- plan row interpolations: ["item.get('assetName', 'N/A')", "item.get('assetType', 'N/A')", "item.get('allocationRatio', 'N/A')", "item.get('expectedGain', 'N/A')", "item.get('buyTiming', 'N/A')", "item.get('sellTiming', 'N/A')", "item.get('holdingStrategy', 'N/A')"]

def planPlaceholder : String :=
  "<tr><td colspan=\"7\">暂无定制投资组合方案。</td></tr>"

def usTableHead : String :=
  "\n            <div class=\"section\">\n                <h2 class=\"section-title\">中长线投资推荐</h2>\n                <div class=\"stock-table-container\">\n                    <h3>美股 Top 10</h3>\n                    <table class=\"stock-table\">\n                        <thead>\n                            <tr>\n                                <th>公司</th>\n                                <th>代码</th>\n                                <th>入选理由</th>\n                                <th>最新价格</th>\n                                <th>市值</th>\n                                <th>周涨幅</th>\n                                <th>PE</th>\n                                <th>PS</th>\n                                <th>ROE</th>\n                                <th>详情</th>\n                            </tr>\n                        </thead>\n                        <tbody>\n    "

def usR0 : String :=
  "\n                            <tr>\n                                <td>"

def usR1 : String :=
  "</td>\n                                <td>"

def usR2 : String :=
  "</td>\n                                <td>"

def usR3 : String :=
  "</td>\n                                <td>"

def usR4 : String :=
  "</td>\n                                <td>"

def usR5 : String :=
  "</td>\n                                <td>"

def usR6 : String :=
  "</td>\n                                <td>"

def usR7 : String :=
  "</td>\n                                <td>"

def usR8 : String :=
  "</td>\n                                <td>"

def usR9 : String :=
  "</td>\n                                <td><a href=\""

def usR10 : String :=
  "\">查看</a></td>\n                            </tr>\n                "

-- us row interpolations: ["stock.get('companyName', 'N/A')", "stock.get('stockCode', 'N/A')", "stock.get('reason', 'N/A')", "stock.get('price', 'N/A')", "stock.get('marketCap', 'N/A')", 'weekly_change_str', "stock.get('peRatio', 'N/A')", "stock.get('psRatio', 'N/A')", 'roe_ratio_str', "stock.get('sourceLink', '#')"]

def usPlaceholderRow : String :=
  "<tr><td colspan=\"10\">暂无美股推荐。</td></tr>"

def otR0 : String :=
  "\n                            <tr>\n                                <td>"

def otR1 : String :=
  "</td>\n                                <td>"

def otR2 : String :=
  "</td>\n                                <td>"

def otR3 : String :=
  "</td>\n                                <td>"

def otR4 : String :=
  "</td>\n                                <td>"

def otR5 : String :=
  "</td>\n                                <td>"

def otR6 : String :=
  "</td>\n                                <td>"

def otR7 : String :=
  "</td>\n                                <td>"

def otR8 : String :=
  "</td>\n                                <td><a href=\""

def otR9 : String :=
  "\">查看</a></td>\n                            </tr>\n                "

-- other row interpolations: ["stock.get('companyName', 'N/A')", "stock.get('stockCode', 'N/A')", "stock.get('reason', 'N/A')", "stock.get('price', 'N/A')", "stock.get('marketCap', 'N/A')", 'weekly_change_str', "stock.get('peRatio', 'N/A')", "stock.get('pbRatio', 'N/A')", "stock.get('sourceLink', '#')"]

def otPh0 : String :=
  "<tr><td colspan=\"9\">暂无"

def otPh1 : String :=
  "推荐。</td></tr>"

-- other placeholder interpolations: ['market_name']

def hkTableHead : String :=
  "</tbody></table><h3>港股 Top 10</h3><table class=\x27stock-table\x27><thead><tr><th>公司</th><th>代码</th><th>入选理由</th><th>最新价格</th><th>市值</th><th>周涨幅</th><th>PE</th><th>PB</th><th>详情</th></tr></thead><tbody>"

def cnTableHead : String :=
  "</tbody></table><h3>A股 Top 10</h3><table class=\x27stock-table\x27><thead><tr><th>公司</th><th>代码</th><th>入选理由</th><th>最新价格</th><th>市值</th><th>周涨幅</th><th>PE</th><th>PB</th><th>详情</th></tr></thead><tbody>"

def newsHead : String :=
  "\n            <div class=\"section\">\n                <h2 class=\"section-title\">相关资讯</h2>\n                <ul class=\"stock-list\">\n    "

def nwI0 : String :=
  "\n        <li class=\"stock-item\">\n            <p><strong>"

def nwI1 : String :=
  "</strong></p>\n            <p class=\"link-section\"><a href=\""

def nwI2 : String :=
  "\">"

def nwI3 : String :=
  "</a></p>\n        </li>\n        "

-- news item interpolations: ["link.get('title', 'N/A')", "link.get('url', '#')", "link.get('url', '#')"]

def htmlClosing : String :=
  "\n                </ul>\n            </div>\n        </div>\n    </body>\n    </html>\n    "

/-- `html_content += "</tbody></table></div></div>"` (lines 815 and 891). -/
def tailTables : String := "</tbody></table></div></div>"

/-- The big leading f-string of `_format_html_report` (lines 657-795),
assembled from its literal chunks and interpolated values. -/
def htmlMain (reportDate : String) (r : Report) : String :=
  htmlM0 ++ reportDate ++ htmlM1 ++ reportDate ++ htmlM2
    ++ r.overallSentiment.getD "N/A" ++ htmlM3 ++ r.overallSummary.getD "N/A"
    ++ htmlM4 ++ commentaryHtml r
    ++ htmlM5 ++ pfGet r.investmentPortfolio Portfolio.capital
    ++ htmlM6 ++ pfGet r.investmentPortfolio Portfolio.targetAnnualReturn
    ++ htmlM7 ++ pfGet r.investmentPortfolio Portfolio.portfolioSummary
    ++ htmlM8

/-- One investment-plan table row (lines 801-811). -/
def planRow (item : PlanItem) : String :=
  planR0 ++ item.assetName.getD "N/A" ++ planR1 ++ item.assetType.getD "N/A"
    ++ planR2 ++ item.allocationRatio.getD "N/A" ++ planR3 ++ item.expectedGain.getD "N/A"
    ++ planR4 ++ item.buyTiming.getD "N/A" ++ planR5 ++ item.sellTiming.getD "N/A"
    ++ planR6 ++ item.holdingStrategy.getD "N/A" ++ planR7

/-- The plan-table body (lines 798-813): rows when the plan list is non-empty,
else the placeholder row. -/
def planRows (r : Report) : String :=
  if (pfPlan r.investmentPortfolio).isEmpty then planPlaceholder
  else String.join ((pfPlan r.investmentPortfolio).map planRow)

/-- `weekly_change_str` (lines 846 and 869): `f"{x}%"` for a numeric value,
else the stored value with default `'N/A'`. -/
def weeklyChangeStr (stock : StockPick) : String :=
  match stock.weeklyChange with
  | PyVal.vNum q => renderQ q ++ "%"
  | PyVal.vStr s => s
  | PyVal.vNone => "N/A"

/-- `roe_ratio_str` (line 847). -/
def roeRatioStr (stock : StockPick) : String :=
  match stock.roeRatio with
  | PyVal.vNum q => renderQ q ++ "%"
  | PyVal.vStr s => s
  | PyVal.vNone => "N/A"

/-- One US-table row (lines 848-861). -/
def usRow (stock : StockPick) : String :=
  usR0 ++ pyInterp (pyGet stock.companyName "N/A")
    ++ usR1 ++ pyInterp (pyGet stock.stockCode "N/A")
    ++ usR2 ++ pyInterp (pyGet stock.reason "N/A")
    ++ usR3 ++ pyInterp (pyGet stock.price "N/A")
    ++ usR4 ++ pyInterp (pyGet stock.marketCap "N/A")
    ++ usR5 ++ weeklyChangeStr stock
    ++ usR6 ++ pyInterp (pyGet stock.peRatio "N/A")
    ++ usR7 ++ pyInterp (pyGet stock.psRatio "N/A")
    ++ usR8 ++ roeRatioStr stock
    ++ usR9 ++ pyInterp (pyGet stock.sourceLink "#")
    ++ usR10

/-- `add_us_stocks_to_html_table` (lines 842-863): rows for a non-empty list,
else the "no US picks" placeholder row. -/
def usRows (stocks : List StockPick) : String :=
  if stocks.isEmpty then usPlaceholderRow
  else String.join (stocks.map usRow)

/-- One HK/CN-table row (lines 870-882). -/
def otherRow (stock : StockPick) : String :=
  otR0 ++ pyInterp (pyGet stock.companyName "N/A")
    ++ otR1 ++ pyInterp (pyGet stock.stockCode "N/A")
    ++ otR2 ++ pyInterp (pyGet stock.reason "N/A")
    ++ otR3 ++ pyInterp (pyGet stock.price "N/A")
    ++ otR4 ++ pyInterp (pyGet stock.marketCap "N/A")
    ++ otR5 ++ weeklyChangeStr stock
    ++ otR6 ++ pyInterp (pyGet stock.peRatio "N/A")
    ++ otR7 ++ pyInterp (pyGet stock.pbRatio "N/A")
    ++ otR8 ++ pyInterp (pyGet stock.sourceLink "#")
    ++ otR9

/-- `add_other_stocks_to_html_table` (lines 865-884): rows for a non-empty
list, else the market-named placeholder row. -/
def otherRows (stocks : List StockPick) (marketName : String) : String :=
  if stocks.isEmpty then otPh0 ++ marketName ++ otPh1
  else String.join (stocks.map otherRow)

/-- One news-link item (lines 901-906). -/
def newsItem (link : NewsLink) : String :=
  nwI0 ++ link.title.getD "N/A" ++ nwI1 ++ link.url.getD "#" ++ nwI2 ++ link.url.getD "#"
    ++ nwI3

/-- The news list (lines 900-906). -/
def newsItems (links : List NewsLink) : String :=
  String.join (links.map newsItem)

/-- `_format_html_report` (`crawler.py` lines 642-915), with the wall-clock
`report_date` passed as an argument. -/
def formatHtmlReport (reportDate : String) (r : Report) : String :=
  htmlMain reportDate r
    ++ planRows r
    ++ tailTables
    ++ usTableHead
    ++ usRows r.usTop10Stocks
    ++ hkTableHead
    ++ otherRows r.hkTop10Stocks "港股"
    ++ cnTableHead
    ++ otherRows r.cnTop10Stocks "A股"
    ++ tailTables
    ++ newsHead
    ++ newsItems r.relatedNewsLinks
    ++ htmlClosing

/- ===== Claims C7 (amended) and C8 ===== -/

/-- `t` occurs as a substring of `s`. -/
def hasSubstrP (s t : String) : Prop := ∃ x y, s = x ++ t ++ y

theorem hasSubstrP_of_decomp (s t A B C p q : String)
    (hs : s = A ++ B ++ C) (hB : B = p ++ t ++ q) :
    hasSubstrP s t := by
  refine ⟨A ++ p, q ++ C, ?_⟩
  rw [hs, hB]
  simp only [String.append_assoc]

theorem usRows_nil :
    usRows [] = "<tr><td colspan=\"10\">" ++ "暂无美股推荐。" ++ "</td></tr>" := rfl

theorem otherRows_nil_hk :
    otherRows [] "港股" = "<tr><td colspan=\"9\">" ++ "暂无港股推荐。" ++ "</td></tr>" := rfl

theorem otherRows_nil_cn :
    otherRows [] "A股" = "<tr><td colspan=\"9\">" ++ "暂无A股推荐。" ++ "</td></tr>" := rfl

/-- C7 amended: for every report and every single market whose stock sequence
is empty (the other markets arbitrary), the HTML projection contains a
non-empty "no recommendations" placeholder row for that market, while the
compact rich-text projection of that empty sequence is the **empty string**
(not a non-empty placeholder). -/
theorem c7_amended_placeholders (d : String) (r : Report) :
    (r.usTop10Stocks = [] →
      hasSubstrP (formatHtmlReport d r) "暂无美股推荐。" ∧
      formatStocksForNotion r.usTop10Stocks = "") ∧
    (r.hkTop10Stocks = [] →
      hasSubstrP (formatHtmlReport d r) "暂无港股推荐。" ∧
      formatStocksForNotion r.hkTop10Stocks = "") ∧
    (r.cnTop10Stocks = [] →
      hasSubstrP (formatHtmlReport d r) "暂无A股推荐。" ∧
      formatStocksForNotion r.cnTop10Stocks = "") := by
  refine ⟨fun h1 => ⟨?_, by rw [h1]; rfl⟩, fun h2 => ⟨?_, by rw [h2]; rfl⟩,
    fun h3 => ⟨?_, by rw [h3]; rfl⟩⟩
  · exact hasSubstrP_of_decomp _ _
      (htmlMain d r ++ planRows r ++ tailTables ++ usTableHead)
      (usRows r.usTop10Stocks)
      (hkTableHead ++ otherRows r.hkTop10Stocks "港股" ++ cnTableHead
        ++ otherRows r.cnTop10Stocks "A股" ++ tailTables ++ newsHead
        ++ newsItems r.relatedNewsLinks ++ htmlClosing)
      "<tr><td colspan=\"10\">" "</td></tr>"
      (by simp only [formatHtmlReport, String.append_assoc])
      (by rw [h1]; exact usRows_nil)
  · exact hasSubstrP_of_decomp _ _
      (htmlMain d r ++ planRows r ++ tailTables ++ usTableHead
        ++ usRows r.usTop10Stocks ++ hkTableHead)
      (otherRows r.hkTop10Stocks "港股")
      (cnTableHead ++ otherRows r.cnTop10Stocks "A股" ++ tailTables ++ newsHead
        ++ newsItems r.relatedNewsLinks ++ htmlClosing)
      "<tr><td colspan=\"9\">" "</td></tr>"
      (by simp only [formatHtmlReport, String.append_assoc])
      (by rw [h2]; exact otherRows_nil_hk)
  · exact hasSubstrP_of_decomp _ _
      (htmlMain d r ++ planRows r ++ tailTables ++ usTableHead
        ++ usRows r.usTop10Stocks ++ hkTableHead ++ otherRows r.hkTop10Stocks "港股"
        ++ cnTableHead)
      (otherRows r.cnTop10Stocks "A股")
      (tailTables ++ newsHead ++ newsItems r.relatedNewsLinks ++ htmlClosing)
      "<tr><td colspan=\"9\">" "</td></tr>"
      (by simp only [formatHtmlReport, String.append_assoc])
      (by rw [h3]; exact otherRows_nil_cn)

/-- A report in which only the US sequence is empty: the HK and CN sequences
hold one pick each. -/
def mixedReport : Report :=
  { usTop10Stocks := []
    hkTop10Stocks := [{ stockCode := PyVal.vStr "0700.HK" }]
    cnTop10Stocks := [{ stockCode := PyVal.vStr "600519.SH" }] }

/-- The all-defaults report (three empty stock sequences). -/
def emptyReport : Report := {}

/-- Witness for the amended C7: the US conjunct at a report where only the US
sequence is empty, and the HK/CN conjuncts at an all-empty report. -/
theorem c7_witness :
    (hasSubstrP (formatHtmlReport "2025年01月01日" mixedReport) "暂无美股推荐。" ∧
      formatStocksForNotion mixedReport.usTop10Stocks = "") ∧
    (hasSubstrP (formatHtmlReport "2025年01月01日" emptyReport) "暂无港股推荐。" ∧
      formatStocksForNotion emptyReport.hkTop10Stocks = "") ∧
    (hasSubstrP (formatHtmlReport "2025年01月01日" emptyReport) "暂无A股推荐。" ∧
      formatStocksForNotion emptyReport.cnTop10Stocks = "") :=
  ⟨(c7_amended_placeholders "2025年01月01日" mixedReport).1 rfl,
   (c7_amended_placeholders "2025年01月01日" emptyReport).2.1 rfl,
   (c7_amended_placeholders "2025年01月01日" emptyReport).2.2 rfl⟩

/- ===== Claim C8 ===== -/

/-- A fixed report date for the C8 analysis. -/
def c8Date : String := "2025年01月01日"

/-- A concrete normalized report, parameterized only by its sentiment value. -/
def c8Report (s : String) : Report :=
  { overallSentiment := some s
    overallSummary := some "S"
    dailyCommentary := CommentaryVal.str "C" }

/-- Everything the HTML projection emits before the sentiment value. -/
def c8CoreA : String := htmlM0 ++ c8Date ++ htmlM1 ++ c8Date ++ htmlM2

/-- Everything the HTML projection emits after the sentiment value. -/
def c8CoreB : String :=
  htmlM3 ++ "S" ++ htmlM4 ++ replaceNl "C" ++ htmlM5 ++ "N/A" ++ htmlM6 ++ "N/A"
    ++ htmlM7 ++ "N/A" ++ htmlM8
    ++ planPlaceholder ++ tailTables ++ usTableHead ++ usPlaceholderRow ++ hkTableHead
    ++ (otPh0 ++ "港股" ++ otPh1) ++ cnTableHead ++ (otPh0 ++ "A股" ++ otPh1)
    ++ tailTables ++ newsHead ++ newsItems [] ++ htmlClosing

theorem c8_sentiment_splice (s : String) :
    formatHtmlReport c8Date (c8Report s) = c8CoreA ++ s ++ c8CoreB := by
  simp only [formatHtmlReport, htmlMain, c8Report, c8CoreA, c8CoreB, planRows, pfPlan,
    pfGet, commentaryHtml, usRows, otherRows, Option.getD_some, List.isEmpty_nil,
    if_true, String.append_assoc]

/-- C8 counterexample: the HTML documents rendered for the three sentiment
values (positive `利好`, negative `利空`, neutral `中性`) are **identical
except for the verbatim sentiment text** spliced into the core-analysis
paragraph (the constants `c8CoreA`/`c8CoreB` do not depend on the sentiment).
Hence no sentiment-keyed color mapping or colored badge exists: a positive
report does not yield any green-toned styling that a negative report lacks. -/
theorem c8_counterexample :
    formatHtmlReport c8Date (c8Report "利好") = c8CoreA ++ "利好" ++ c8CoreB ∧
    formatHtmlReport c8Date (c8Report "利空") = c8CoreA ++ "利空" ++ c8CoreB ∧
    formatHtmlReport c8Date (c8Report "中性") = c8CoreA ++ "中性" ++ c8CoreB ∧
    ("利好" : String) ≠ "利空" :=
  ⟨c8_sentiment_splice "利好", c8_sentiment_splice "利空", c8_sentiment_splice "中性",
    by decide⟩

/-- Everything the HTML projection emits before the sentiment value: a
function of the report date only. -/
def htmlBeforeSentiment (reportDate : String) : String :=
  htmlM0 ++ reportDate ++ htmlM1 ++ reportDate ++ htmlM2

/-- Everything the HTML projection emits after the sentiment value: a function
of the report's non-sentiment fields only (it never reads
`overallSentiment`). -/
def htmlAfterSentiment (r : Report) : String :=
  htmlM3 ++ r.overallSummary.getD "N/A" ++ htmlM4 ++ commentaryHtml r
    ++ htmlM5 ++ pfGet r.investmentPortfolio Portfolio.capital
    ++ htmlM6 ++ pfGet r.investmentPortfolio Portfolio.targetAnnualReturn
    ++ htmlM7 ++ pfGet r.investmentPortfolio Portfolio.portfolioSummary
    ++ htmlM8 ++ planRows r ++ tailTables ++ usTableHead ++ usRows r.usTop10Stocks
    ++ hkTableHead ++ otherRows r.hkTop10Stocks "港股" ++ cnTableHead
    ++ otherRows r.cnTop10Stocks "A股" ++ tailTables ++ newsHead
    ++ newsItems r.relatedNewsLinks ++ htmlClosing

/-- C8 amended: for **every** report date and **every** report, the HTML
projection renders the sentiment as plain text in the core-analysis paragraph
(`整体市场情绪: …`): the rendered document is a sentiment-independent prefix
(a function of the date alone), then the verbatim sentiment text, then a
sentiment-independent suffix (a function of the report's other fields alone) —
in particular all styling and colors are independent of the sentiment value,
so there is no sentiment badge and no sentiment-to-color mapping. -/
theorem c8_amended_sentiment_plaintext (d : String) (r : Report) (s : String) :
    formatHtmlReport d { r with overallSentiment := some s }
      = htmlBeforeSentiment d ++ s ++ htmlAfterSentiment r := by
  simp only [formatHtmlReport, htmlMain, htmlBeforeSentiment, htmlAfterSentiment,
    commentaryHtml, planRows, pfPlan, pfGet, usRows, otherRows, newsItems,
    Option.getD_some, String.append_assoc]
